import Mathlib

/-!
# Verification of the sam-remote-zfs-unlocker backend core

Shallow embedding of the backend execution abstraction of the
`sam-remote-zfs-unlocker` repository:

* the mock backend (`common/src/api/mock.rs`),
* the live backend's dataset operations (`webserver-lib/src/backend/live.rs`),
* the command chain runner (`webserver-lib/src/backend/command_caller.rs`),
* endpoint derivation and the command registry
  (`webserver-lib/src/backend/routable_command.rs`,
  `webserver-lib/src/run_options/config.rs`).

Pure Rust functions become Lean functions; stateful methods become explicit
state-passing functions returning the post-state together with the result.
External collaborators (the OS process interface and the `sam-zfs-unlocker`
ZFS wrapper crate) are modelled as oracles / explicit world states, as the
specification describes their contracts.
-/

deriving instance DecidableEq for Except

namespace ZfsUnlocker

/-! ## Shared response types (`common/src/types.rs`) -/

/-- `common/src/types.rs`: `DatasetFullMountState`. -/
structure DatasetFullMountState where
  dataset_name : String
  key_loaded : Bool
  is_mounted : Bool
deriving Repr, DecidableEq

/-- `common/src/types.rs`: `KeyLoadedResponse`. -/
structure KeyLoadedResponse where
  dataset_name : String
  key_loaded : Bool
deriving Repr, DecidableEq

/-- `common/src/types.rs`: `DatasetMountedResponse`. -/
structure DatasetMountedResponse where
  dataset_name : String
  is_mounted : Bool
deriving Repr, DecidableEq

/-- `common/src/types.rs`: `RunCommandOutput` (field `error_code: i32`). -/
structure RunCommandOutput where
  stdout : String
  stderr : String
  error_code : Int
deriving Repr, DecidableEq

/-! ## Mock backend (`common/src/api/mock.rs`)

`BTreeMap<String, MockDatasetDetails>` is modelled as an association list
(`List (String × MockDatasetDetails)`): `get`/`get_mut` is the first matching
entry, and in-place mutation rewrites the matching entries.  `BTreeSet<String>`
is a `List String` queried by membership. -/

namespace Mock

/-- `common/src/api/mock.rs`: `ApiMockError`. -/
inductive ApiMockError where
  | InvalidEncryptionPassword
  | DatasetNotFound (name : String)
  | CannotUnlockKeyForMountDataset (name : String)
  | SimulatedError (name : String)
deriving Repr, DecidableEq

/-- `common/src/api/mock.rs`: `MockDatasetDetails`. -/
structure MockDatasetDetails where
  state : DatasetFullMountState
  unlock_password : String
deriving Repr, DecidableEq

/-- `common/src/api/mock.rs`: `ApiMockInner` (the data behind the mutex). -/
structure ApiMockInner where
  state : List (String × MockDatasetDetails)
  /-- Datasets that produce errors on requests -/
  erring_datasets : List String
deriving Repr, DecidableEq

/-- `BTreeMap::get` on the association list. -/
def mapGet (m : List (String × MockDatasetDetails)) (k : String) :
    Option MockDatasetDetails :=
  (m.find? (fun e => e.1 == k)).map (·.2)

/-- Mutation through `BTreeMap::get_mut`: rewrite the value at key `k` (the
first matching entry — a `BTreeMap` has unique keys). -/
def mapSet (m : List (String × MockDatasetDetails)) (k : String)
    (f : MockDatasetDetails → MockDatasetDetails) :
    List (String × MockDatasetDetails) :=
  match m with
  | [] => []
  | e :: rest => if e.1 == k then (e.1, f e.2) :: rest else e :: mapSet rest k f

/-- `ApiMock::new`: seed every named dataset with `key_loaded = false`,
`is_mounted = false` and its unlock password. -/
def new (dataset_names_and_password : List (String × String))
    (erring_datasets : List String) : ApiMockInner :=
  { state := dataset_names_and_password.map (fun (ds_name, password) =>
      (ds_name,
        { state :=
            { dataset_name := ds_name
              key_loaded := false
              is_mounted := false }
          unlock_password := password }))
    erring_datasets := erring_datasets }

/-- `ApiMock::load_key`: simulated error for erring datasets; otherwise set
`key_loaded := true` when the password matches, else
`InvalidEncryptionPassword`.  Returns the post-state with the result. -/
def load_key (inner : ApiMockInner) (dataset_name password : String) :
    ApiMockInner × Except ApiMockError KeyLoadedResponse :=
  if dataset_name ∈ inner.erring_datasets then
    (inner, .error (.SimulatedError dataset_name))
  else
    match mapGet inner.state dataset_name with
    | none => (inner, .error (.DatasetNotFound dataset_name))
    | some dataset_details =>
      if password == dataset_details.unlock_password then
        ({ inner with
            state := mapSet inner.state dataset_name
              (fun d => { d with state := { d.state with key_loaded := true } }) },
          .ok { dataset_name := dataset_name, key_loaded := true })
      else
        (inner, .error .InvalidEncryptionPassword)

/-- `ApiMock::mount_dataset`: simulated error for erring datasets; otherwise
set `is_mounted := true` unconditionally (the Rust method performs no
`key_loaded` check). -/
def mount_dataset (inner : ApiMockInner) (dataset_name : String) :
    ApiMockInner × Except ApiMockError DatasetMountedResponse :=
  if dataset_name ∈ inner.erring_datasets then
    (inner, .error (.SimulatedError dataset_name))
  else
    match mapGet inner.state dataset_name with
    | none => (inner, .error (.DatasetNotFound dataset_name))
    | some _ =>
      ({ inner with
          state := mapSet inner.state dataset_name
            (fun d => { d with state := { d.state with is_mounted := true } }) },
        .ok { dataset_name := dataset_name, is_mounted := true })

/-- `ApiMock::unload_key`: refuse while mounted, otherwise clear
`key_loaded`. -/
def unload_key (inner : ApiMockInner) (dataset_name : String) :
    ApiMockInner × Except ApiMockError KeyLoadedResponse :=
  if dataset_name ∈ inner.erring_datasets then
    (inner, .error (.SimulatedError dataset_name))
  else
    match mapGet inner.state dataset_name with
    | none => (inner, .error (.DatasetNotFound dataset_name))
    | some dataset_details =>
      if !dataset_details.state.is_mounted then
        ({ inner with
            state := mapSet inner.state dataset_name
              (fun d => { d with state := { d.state with key_loaded := false } }) },
          .ok { dataset_name := dataset_name, key_loaded := false })
      else
        (inner, .error (.CannotUnlockKeyForMountDataset dataset_name))

/-- `ApiMock::unmount_dataset`: set `is_mounted := false`. -/
def unmount_dataset (inner : ApiMockInner) (dataset_name : String) :
    ApiMockInner × Except ApiMockError DatasetMountedResponse :=
  if dataset_name ∈ inner.erring_datasets then
    (inner, .error (.SimulatedError dataset_name))
  else
    match mapGet inner.state dataset_name with
    | none => (inner, .error (.DatasetNotFound dataset_name))
    | some _ =>
      ({ inner with
          state := mapSet inner.state dataset_name
            (fun d => { d with state := { d.state with is_mounted := false } }) },
        .ok { dataset_name := dataset_name, is_mounted := false })

/-- `ApiMock::encrypted_dataset_state` (read-only). -/
def encrypted_dataset_state (inner : ApiMockInner) (dataset_name : String) :
    Except ApiMockError DatasetFullMountState :=
  if dataset_name ∈ inner.erring_datasets then
    .error (.SimulatedError dataset_name)
  else
    match mapGet inner.state dataset_name with
    | none => .error (.DatasetNotFound dataset_name)
    | some dataset_details => .ok dataset_details.state

/-- One mock mutating operation, for talking about operation sequences. -/
inductive MockOp where
  | loadKey (dataset_name password : String)
  | mountDataset (dataset_name : String)
  | unloadKey (dataset_name : String)
  | unmountDataset (dataset_name : String)
deriving Repr, DecidableEq

/-- Apply one mock operation, keeping only the post-state. -/
def applyOp (inner : ApiMockInner) : MockOp → ApiMockInner
  | .loadKey n p => (load_key inner n p).1
  | .mountDataset n => (mount_dataset inner n).1
  | .unloadKey n => (unload_key inner n).1
  | .unmountDataset n => (unmount_dataset inner n).1

/-- Apply a sequence of mock operations in order. -/
def applyOps (inner : ApiMockInner) (ops : List MockOp) : ApiMockInner :=
  ops.foldl applyOp inner

/-- The mount-implies-key-loaded invariant over a whole mock state. -/
def invariantHolds (inner : ApiMockInner) : Bool :=
  inner.state.all (fun e => !e.2.state.is_mounted || e.2.state.key_loaded)

end Mock

/-! ## Live backend (`webserver-lib/src/backend/live.rs`)

The live backend shells out to the external `sam-zfs-unlocker` crate, which in
turn drives the real ZFS tool.  That crate is not part of this repository, so
its primitives are modelled as operations on an explicit world state, as the
specification describes the external volume-management tool. -/

namespace Live

/-- Modelled from the spec: one dataset of the external volume-management
tool, carrying its key/mount state and its correct passphrase. -/
structure ZfsDataset where
  key_loaded : Bool
  is_mounted : Bool
  passphrase : String
deriving Repr, DecidableEq

/-- Modelled from the spec: the state of the external volume-management tool
(the `sam-zfs-unlocker` crate's view of ZFS), a map from dataset name to its
state. -/
structure ZfsWorld where
  datasets : List (String × ZfsDataset)
deriving Repr, DecidableEq

/-- An error reported by the external `sam-zfs-unlocker` crate
(`ZfsError`), opaque to this core. -/
structure ZfsError where
  msg : String
deriving Repr, DecidableEq

/-- Lookup of a dataset in the modelled ZFS world. -/
def ZfsWorld.get (w : ZfsWorld) (name : String) : Option ZfsDataset :=
  (w.datasets.find? (fun e => e.1 == name)).map (·.2)

/-- Rewrite the dataset stored under `name` (first matching entry — the
underlying tool's namespace has unique dataset names). -/
def ZfsWorld.set (w : ZfsWorld) (name : String)
    (f : ZfsDataset → ZfsDataset) : ZfsWorld :=
  { datasets := setFirst w.datasets name f }
where
  setFirst : List (String × ZfsDataset) → String →
      (ZfsDataset → ZfsDataset) → List (String × ZfsDataset)
    | [], _, _ => []
    | e :: rest, name, f =>
      if e.1 == name then (e.1, f e.2) :: rest else e :: setFirst rest name f

/-- Modelled from the spec: `sam_zfs_unlocker::zfs_is_key_loaded`; `none`
plays `Ok(None)`, i.e. the dataset does not exist. -/
def zfs_is_key_loaded (w : ZfsWorld) (name : String) : Option Bool :=
  (w.get name).map (·.key_loaded)

/-- Modelled from the spec: `sam_zfs_unlocker::zfs_is_dataset_mounted`. -/
def zfs_is_dataset_mounted (w : ZfsWorld) (name : String) : Option Bool :=
  (w.get name).map (·.is_mounted)

/-- Modelled from the spec: `sam_zfs_unlocker::zfs_load_key` makes the key
available when the passphrase is correct, and reports a `ZfsError`
otherwise. -/
def zfs_load_key (w : ZfsWorld) (name passphrase : String) :
    Except ZfsError ZfsWorld :=
  match w.get name with
  | none => .error ⟨"dataset not found"⟩
  | some d =>
    if passphrase == d.passphrase then
      .ok (w.set name (fun d => { d with key_loaded := true }))
    else
      .error ⟨"wrong passphrase"⟩

/-- Modelled from the spec: `sam_zfs_unlocker::zfs_mount_dataset` attaches
the filesystem of an existing dataset. -/
def zfs_mount_dataset (w : ZfsWorld) (name : String) :
    Except ZfsError ZfsWorld :=
  match w.get name with
  | none => .error ⟨"dataset not found"⟩
  | some _ => .ok (w.set name (fun d => { d with is_mounted := true }))

/-- `webserver-lib/src/backend/error.rs`: `Error`. -/
inductive Error where
  | Zfs (e : ZfsError)
  | DatasetNotFound (name : String)
  | KeyNotLoadedForDataset (name : String)
  | PassphraseNotProvided (name : String)
  | NonPrintablePassphrase (err name : String)
  | NoCommandsProvided
  | ZfsDisabled
  | BlacklistedDataset (name : String)
  | RegisteredCmdMissing (endpoint : String)
deriving Repr, DecidableEq

/-- `webserver-lib/src/run_options/config.rs`: `ZfsConfig`. -/
structure ZfsConfig where
  zfs_enabled : Bool
  blacklisted_zfs_datasets : Option (List String)
deriving Repr, DecidableEq

/-- `LiveExecutionBackend::zfs_enabled_or_error`. -/
def zfs_enabled_or_error (cfg : ZfsConfig) : Except Error Unit :=
  if !cfg.zfs_enabled then .error .ZfsDisabled else .ok ()

/-- `LiveExecutionBackend::zfs_dataset_blacklisted`. -/
def zfs_dataset_blacklisted (cfg : ZfsConfig) (dataset_name : String) : Bool :=
  ((cfg.blacklisted_zfs_datasets.map
    (fun bl => bl.any (fun s => s == dataset_name))).getD false)

/-- `LiveExecutionBackend::zfs_dataset_not_blacklisted_or_error`. -/
def zfs_dataset_not_blacklisted_or_error (cfg : ZfsConfig)
    (dataset_name : String) : Except Error Unit :=
  if zfs_dataset_blacklisted cfg dataset_name then
    .error (.BlacklistedDataset dataset_name)
  else .ok ()

/-- `LiveExecutionBackend::zfs_load_key` (live.rs, lines 129–155): early
success when the key is already loaded, otherwise call out to the tool.
Returns the post-world together with the result. -/
def live_zfs_load_key (cfg : ZfsConfig) (w : ZfsWorld)
    (dataset_name passphrase : String) :
    ZfsWorld × Except Error KeyLoadedResponse :=
  match zfs_enabled_or_error cfg with
  | .error e => (w, .error e)
  | .ok () =>
    match zfs_dataset_not_blacklisted_or_error cfg dataset_name with
    | .error e => (w, .error e)
    | .ok () =>
      match zfs_is_key_loaded w dataset_name with
      | none => (w, .error (.DatasetNotFound dataset_name))
      | some true =>
        (w, .ok { dataset_name := dataset_name, key_loaded := true })
      | some false =>
        match zfs_load_key w dataset_name passphrase with
        | .error e => (w, .error (.Zfs e))
        | .ok w' =>
          (w', .ok { dataset_name := dataset_name, key_loaded := true })

/-- `LiveExecutionBackend::zfs_mount_dataset` (live.rs, lines 157–188):
early success when already mounted, `KeyNotLoadedForDataset` when the key is
absent, otherwise mount. -/
def live_zfs_mount_dataset (cfg : ZfsConfig) (w : ZfsWorld)
    (dataset_name : String) :
    ZfsWorld × Except Error DatasetMountedResponse :=
  match zfs_enabled_or_error cfg with
  | .error e => (w, .error e)
  | .ok () =>
    match zfs_dataset_not_blacklisted_or_error cfg dataset_name with
    | .error e => (w, .error e)
    | .ok () =>
      match zfs_is_dataset_mounted w dataset_name with
      | none => (w, .error (.DatasetNotFound dataset_name))
      | some true =>
        (w, .ok { dataset_name := dataset_name, is_mounted := true })
      | some false =>
        match zfs_is_key_loaded w dataset_name with
        | none => (w, .error (.DatasetNotFound dataset_name))
        | some false => (w, .error (.KeyNotLoadedForDataset dataset_name))
        | some true =>
          match zfs_mount_dataset w dataset_name with
          | .error e => (w, .error (.Zfs e))
          | .ok w' =>
            (w', .ok { dataset_name := dataset_name, is_mounted := true })

/-- One mutating operation of the live execution backend (its trait offers
exactly `zfs_load_key` and `zfs_mount_dataset` as mutating dataset
operations). -/
inductive LiveOp where
  | loadKey (dataset_name passphrase : String)
  | mountDataset (dataset_name : String)
deriving Repr, DecidableEq

/-- Apply one live operation, keeping only the post-world. -/
def applyOp (cfg : ZfsConfig) (w : ZfsWorld) : LiveOp → ZfsWorld
  | .loadKey n p => (live_zfs_load_key cfg w n p).1
  | .mountDataset n => (live_zfs_mount_dataset cfg w n).1

/-- Apply a sequence of live operations in order. -/
def applyOps (cfg : ZfsConfig) (w : ZfsWorld) (ops : List LiveOp) : ZfsWorld :=
  ops.foldl (applyOp cfg) w

/-- The mount-implies-key-loaded invariant over the modelled ZFS world. -/
def invariantHolds (w : ZfsWorld) : Bool :=
  w.datasets.all (fun e => !e.2.is_mounted || e.2.key_loaded)

end Live

/-! ## Command execution engine (`webserver-lib/src/backend/command_caller.rs`)

`run_command` spawns an OS process; the OS is an external collaborator, so it
is modelled as an oracle describing the observable outcome of one spawn
attempt: either the process ran to completion (captured stdout, stderr and an
optional exit code — `none` when killed by a signal), or spawning failed, or
an I/O step (stdin write, output read, wait) failed, or the child's stdin
handle was unavailable.  `run_command` translates the outcome exactly as the
Rust function does; `chain_commands` is the Rust loop.  A trace of performed
invocations (each with the stdin text it received) is carried alongside so
that theorems can speak about which invocations ran. -/

namespace Cmd

/-- `command_caller.rs`: `CommandError`. -/
inductive CommandError where
  | EmptyCommand
  | CallFailed (msg : String)
  | SystemError (msg : String)
  | StdinPipe
deriving Repr, DecidableEq

/-- The `thiserror` display strings of `CommandError` (used by
`chain_commands` via `e.to_string()`). -/
def CommandError.display : CommandError → String
  | .EmptyCommand => "Attempted to call empty command"
  | .CallFailed msg => "Call failed: " ++ msg
  | .SystemError msg => "System error: " ++ msg
  | .StdinPipe => "Failed to retrieve stdin system pipe"

/-- Observable outcome of one OS spawn attempt, as seen by `run_command`. -/
inductive SpawnOutcome where
  | spawned (stdout stderr : String) (code : Option Int)
  | spawnFailed (msg : String)
  | ioFailed (msg : String)
  | stdinPipeMissing
deriving Repr, DecidableEq

/-- The OS as an oracle: what happens when a given argv is spawned with a
given optional stdin text. -/
def OsOracle : Type := List String → Option String → SpawnOutcome

/-- `command_caller.rs`: `run_command`.  Empty argv is rejected; a spawn
failure becomes `CallFailed`, I/O failures become `SystemError`, a missing
stdin pipe becomes `StdinPipe`; a completed child yields
`RunCommandOutput` with `status.code().unwrap_or(0)` on success and
`status.code().unwrap_or(255)` on failure (`success ↔ code = some 0`). -/
def run_command (os : OsOracle) (cmd_with_args : List String)
    (stdin : Option String) : Except CommandError RunCommandOutput :=
  match cmd_with_args with
  | [] => .error .EmptyCommand
  | _ :: _ =>
    match os cmd_with_args stdin with
    | .spawnFailed msg => .error (.CallFailed msg)
    | .ioFailed msg => .error (.SystemError msg)
    | .stdinPipeMissing => .error .StdinPipe
    | .spawned out err code =>
      if code == some 0 then
        .ok { stdout := out, stderr := err, error_code := code.getD 0 }
      else
        .ok { stdout := out, stderr := err, error_code := code.getD 255 }

/-- The loop body of `chain_commands`, also returning the trace of performed
invocations (argv together with the stdin text each one received).  The third
argument is the `result` variable of the Rust loop (initially the
`error_code = 254` placeholder), returned when the command list is
exhausted. -/
def chainGo (os : OsOracle) :
    List (List String) → Option String → RunCommandOutput →
    Except Live.Error RunCommandOutput × List (List String × Option String)
  | [], _, result => (.ok result, [])
  | command :: rest, current_stdin, _ =>
    match run_command os command current_stdin with
    | .error e =>
      (.ok { stdout := "", stderr := e.display, error_code := 253 },
        [(command, current_stdin)])
    | .ok result =>
      if result.error_code != 0 then (.ok result, [(command, current_stdin)])
      else
        let next := chainGo os rest (some result.stdout) result
        (next.1, (command, current_stdin) :: next.2)

/-- `command_caller.rs`: `chain_commands` (lines 116–151). -/
def chain_commands (os : OsOracle) (commands : List (List String))
    (initial_stdin : Option String) : Except Live.Error RunCommandOutput :=
  if commands.isEmpty then .error .NoCommandsProvided
  else
    (chainGo os commands initial_stdin
      { stdout := "", stderr := "", error_code := 254 }).1

/-- The invocations actually performed by `chain_commands`, in order, each
with the stdin text it received. -/
def chain_trace (os : OsOracle) (commands : List (List String))
    (initial_stdin : Option String) : List (List String × Option String) :=
  if commands.isEmpty then []
  else
    (chainGo os commands initial_stdin
      { stdout := "", stderr := "", error_code := 254 }).2

/-- Runs a list of commands under the chain's stdin threading assuming every
one of them completes with exit code 0; returns the stdin text that would be
fed to the next invocation, or `none` if some command fails or errors. -/
def runAllOk (os : OsOracle) :
    List (List String) → Option String → Option (Option String)
  | [], stdin => some stdin
  | c :: rest, stdin =>
    match run_command os c stdin with
    | .ok r => if r.error_code = 0 then runAllOk os rest (some r.stdout) else none
    | .error _ => none

/-- The trace produced by a list of commands that all complete with exit
code 0 under the chain's stdin threading. -/
def okTrace (os : OsOracle) :
    List (List String) → Option String → List (List String × Option String)
  | [], _ => []
  | c :: rest, stdin =>
    (c, stdin) ::
      match run_command os c stdin with
      | .ok r => okTrace os rest (some r.stdout)
      | .error _ => []

/-- Checks that a trace is threaded from a given initial stdin: the first
invocation receives exactly the caller-supplied stdin, each later invocation
receives the captured stdout of its predecessor, and the trace continues past
an invocation only when that invocation completed with exit code 0. -/
def threadedFrom (os : OsOracle) :
    Option String → List (List String × Option String) → Bool
  | _, [] => true
  | stdin, (c, s) :: rest =>
    s == stdin &&
      match run_command os c s with
      | .ok r =>
        if r.error_code = 0 then threadedFrom os (some r.stdout) rest
        else rest.isEmpty
      | .error _ => rest.isEmpty

end Cmd

/-! ## Blake2b-512 (the `blake2` crate used by `hash_string`)

`hash_string` in `webserver-lib/src/backend/routable_command.rs` feeds the
input's UTF-8 bytes to `Blake2b512` and hex-encodes the 64-byte digest.  The
hash itself lives in the external `blake2` crate; it is embedded here as the
standard Blake2b algorithm (RFC 7693) with unkeyed 64-byte output, over `Nat`
with explicit reduction modulo `2 ^ 64`. -/

namespace Blake2

def M64 : Nat := 2 ^ 64

def add64 (a b : Nat) : Nat := (a + b) % M64

def xor64 (a b : Nat) : Nat := a ^^^ b

def rotr64 (x n : Nat) : Nat := ((x >>> n) ||| (x <<< (64 - n))) % M64

/-- The Blake2b initialization vector (RFC 7693; the eight 64-bit SHA-512
initial hash words, written here in decimal: `0x6a09e667f3bcc908` …
`0x5be0cd19137e2179`). -/
def blake2bIV : List Nat :=
  [7640891576956012808, 13503953896175478587, 4354685564936845355,
   11912009170470909681, 5840696475078001361, 11170449401992604703,
   2270897969802886507, 6620516959819538809]

/-- The Blake2b message schedule `SIGMA` (RFC 7693); the first round uses
the identity permutation. -/
def sigmaTable : List (List Nat) :=
  [List.range 16,
   [14, 10, 4, 8, 9, 15, 13, 6, 1, 12, 0, 2, 11, 7, 5, 3],
   [11, 8, 12, 0, 5, 2, 15, 13, 10, 14, 3, 6, 7, 1, 9, 4],
   [7, 9, 3, 1, 13, 12, 11, 14, 2, 6, 5, 10, 4, 0, 15, 8],
   [9, 0, 5, 7, 2, 4, 10, 15, 14, 1, 11, 12, 6, 8, 3, 13],
   [2, 12, 6, 10, 0, 11, 8, 3, 4, 13, 7, 5, 15, 14, 1, 9],
   [12, 5, 1, 15, 14, 13, 4, 10, 0, 7, 6, 3, 9, 2, 8, 11],
   [13, 11, 7, 14, 12, 1, 3, 9, 5, 0, 15, 4, 8, 6, 2, 10],
   [6, 15, 14, 9, 11, 3, 0, 8, 12, 2, 13, 7, 1, 4, 10, 5],
   [10, 2, 8, 4, 7, 6, 1, 5, 15, 11, 9, 14, 3, 12, 13, 0]]

/-- The Blake2b mixing function G acting on the 16-word work vector. -/
def gMix (v : List Nat) (a b c d x y : Nat) : List Nat :=
  let va := add64 (add64 (v.getD a 0) (v.getD b 0)) x
  let vd := rotr64 (xor64 (v.getD d 0) va) 32
  let vc := add64 (v.getD c 0) vd
  let vb := rotr64 (xor64 (v.getD b 0) vc) 24
  let va2 := add64 (add64 va vb) y
  let vd2 := rotr64 (xor64 vd va2) 16
  let vc2 := add64 vc vd2
  let vb2 := rotr64 (xor64 vb vc2) 63
  ((((v.set a va2).set b vb2).set c vc2).set d vd2)

/-- One Blake2b round over the work vector, using message words `m`. -/
def roundFn (m : List Nat) (v : List Nat) (r : Nat) : List Nat :=
  let s := sigmaTable.getD (r % 10) []
  let mw := fun i => m.getD (s.getD i 0) 0
  let v := gMix v 0 4 8 12 (mw 0) (mw 1)
  let v := gMix v 1 5 9 13 (mw 2) (mw 3)
  let v := gMix v 2 6 10 14 (mw 4) (mw 5)
  let v := gMix v 3 7 11 15 (mw 6) (mw 7)
  let v := gMix v 0 5 10 15 (mw 8) (mw 9)
  let v := gMix v 1 6 11 12 (mw 10) (mw 11)
  let v := gMix v 2 7 8 13 (mw 12) (mw 13)
  gMix v 3 4 9 14 (mw 14) (mw 15)

/-- The Blake2b compression function F: `h` is the 8-word chain value, `m`
the 16 message words, `t` the byte counter, `f` the final-block flag. -/
def compress (h : List Nat) (m : List Nat) (t : Nat) (f : Bool) : List Nat :=
  let v := h ++ blake2bIV
  let v := v.set 12 (xor64 (v.getD 12 0) (t % M64))
  let v := v.set 13 (xor64 (v.getD 13 0) ((t / M64) % M64))
  let v := if f then v.set 14 (xor64 (v.getD 14 0) (M64 - 1)) else v
  let v := (List.range 12).foldl (roundFn m) v
  (List.range 8).map (fun i =>
    xor64 (xor64 (h.getD i 0) (v.getD i 0)) (v.getD (i + 8) 0))

/-- Little-endian interpretation of a byte list as one word (missing bytes
read as the zero padding of the final block). -/
def bytesToWord (bs : List Nat) : Nat :=
  bs.foldr (fun b acc => b % 256 + 256 * acc) 0

/-- The 16 message words of one (zero-padded) 128-byte block. -/
def blockWords (block : List Nat) : List Nat :=
  (List.range 16).map (fun i => bytesToWord ((block.drop (8 * i)).take 8))

/-- Split a byte string into 128-byte blocks; always at least one (possibly
short or empty) block, matching Blake2b's treatment of short inputs. -/
def chunks128 (l : List Nat) : List (List Nat) :=
  if _h : l.length ≤ 128 then [l]
  else l.take 128 :: chunks128 (l.drop 128)
termination_by l.length
decreasing_by
  simp only [List.length_drop]
  omega

/-- Unkeyed Blake2b with 64-byte output: initialize the chain value from the
IV and the parameter block (`0x01010000 ^^^ 64`), compress every block (the
byte counter after each non-final block, the total length with the final
flag on the last), and serialize the chain value little-endian. -/
def blake2b512 (input : List Nat) : List Nat :=
  let h0 := blake2bIV
  let h := h0.set 0 (xor64 (h0.getD 0 0) 0x01010040)
  let bs := chunks128 input
  let n := bs.length
  let h := (List.range n).foldl (fun h i =>
    if i = n - 1 then compress h (blockWords (bs.getD i [])) input.length true
    else compress h (blockWords (bs.getD i [])) ((i + 1) * 128) false) h
  h.flatMap (fun x => (List.range 8).map (fun i => (x >>> (8 * i)) % 256))

end Blake2

/-! ## Endpoint derivation and command registry
(`webserver-lib/src/backend/routable_command.rs`,
`webserver-lib/src/run_options/config.rs`) -/

namespace Routing

/-- UTF-8 encoding of one character (Rust's `str::as_bytes` view). -/
def utf8Char (c : Char) : List Nat :=
  let n := c.toNat
  if n < 0x80 then [n]
  else if n < 0x800 then
    [0xC0 ||| (n >>> 6), 0x80 ||| (n &&& 0x3F)]
  else if n < 0x10000 then
    [0xE0 ||| (n >>> 12), 0x80 ||| ((n >>> 6) &&& 0x3F), 0x80 ||| (n &&& 0x3F)]
  else
    [0xF0 ||| (n >>> 18), 0x80 ||| ((n >>> 12) &&& 0x3F),
     0x80 ||| ((n >>> 6) &&& 0x3F), 0x80 ||| (n &&& 0x3F)]

/-- The UTF-8 bytes of a string. -/
def strBytes (s : String) : List Nat := s.data.flatMap utf8Char

def hexDigitChars : List Char := "0123456789abcdef".data

/-- Two lowercase hex digits of one byte (`hex::encode`). -/
def byteToHex (b : Nat) : List Char :=
  [hexDigitChars.getD (b / 16 % 16) '0', hexDigitChars.getD (b % 16) '0']

/-- `hex::encode`: lowercase hexadecimal of a byte string. -/
def hexEncode (bs : List Nat) : String := ⟨bs.flatMap byteToHex⟩

/-- Rust `char::to_ascii_lowercase`. -/
def asciiLower (c : Char) : Char :=
  if 'A' ≤ c ∧ c ≤ 'Z' then Char.ofNat (c.toNat + 32) else c

/-- Rust `str::to_ascii_lowercase`. -/
def toAsciiLowercase (s : String) : String := ⟨s.data.map asciiLower⟩

/-- `routable_command.rs`: `hash_string` — Blake2b-512 of the UTF-8 bytes,
hex-encoded, lowercased. -/
def hash_string (s : String) : String :=
  toAsciiLowercase (hexEncode (Blake2.blake2b512 (strBytes s)))

/-- `run_options/config.rs`: `SingleOrChainedCommands`. -/
inductive SingleOrChainedCommands where
  | Single (cmd : List String)
  | Chained (cmds : List (List String))
deriving Repr, DecidableEq

/-- `SingleOrChainedCommands::commands`. -/
def SingleOrChainedCommands.commands : SingleOrChainedCommands → List (List String)
  | .Single cmd => [cmd]
  | .Chained cmds => cmds

/-- `SingleOrChainedCommands::take_commands`. -/
def SingleOrChainedCommands.take_commands : SingleOrChainedCommands → List (List String)
  | .Single cmd => [cmd]
  | .Chained cmds => cmds

/-- `SingleOrChainedCommands::as_string`: join each invocation's tokens with
`" "`, then join invocations with `" | "`. -/
def SingleOrChainedCommands.as_string (c : SingleOrChainedCommands) : String :=
  String.intercalate " | " (c.commands.map (String.intercalate " "))

/-- `run_options/config.rs`: `CustomCommand`. -/
structure CustomCommand where
  label : String
  url_endpoint : Option String
  runCmd : SingleOrChainedCommands
  stdin_allow : Bool
  stdin_placeholder_text : String
  stdin_is_password : Bool
  enabled : Bool
deriving Repr, DecidableEq

/-- `true` iff the list has no duplicate elements; this is what the
`BTreeSet::insert` loops of `validate_commands_list` check. -/
def listNodup {α} [BEq α] : List α → Bool
  | [] => true
  | x :: xs => !xs.contains x && listNodup xs

/-- `run_options/config.rs`: `validate_commands_list` (lines 168–210) —
reject duplicate command chains and duplicate explicit endpoints among
enabled commands; `true` means the configuration is accepted. -/
def validate_commands_list (cmds : List CustomCommand) : Bool :=
  let enabled := cmds.filter (·.enabled)
  listNodup (enabled.map (·.runCmd.commands)) &&
    listNodup (enabled.filterMap (·.url_endpoint))

/-- `routable_command.rs`: `RoutableCommand`. -/
structure RoutableCommand where
  label : String
  url_endpoint : String
  runCmd : List (List String)
  stdin_allow : Bool
  stdin_placeholder_text : String
  stdin_is_password : Bool
deriving Repr, DecidableEq

/-- `routable_command.rs`: `endpoint_from_custom_command` — the explicit
endpoint if configured, otherwise `hash_string(label + joined argv chain)`. -/
def endpoint_from_custom_command (cmd : CustomCommand) : String :=
  match cmd.url_endpoint with
  | some e => e
  | none => hash_string (cmd.label ++ cmd.runCmd.as_string)

/-- `impl From<CustomCommand> for RoutableCommand`. -/
def RoutableCommand.fromCustom (cmd : CustomCommand) : RoutableCommand :=
  { url_endpoint := endpoint_from_custom_command cmd
    label := cmd.label
    runCmd := cmd.runCmd.take_commands
    stdin_allow := cmd.stdin_allow
    stdin_placeholder_text := cmd.stdin_placeholder_text
    stdin_is_password := cmd.stdin_is_password }

/-- `BTreeMap` insertion: a later binding for an existing key overwrites the
earlier one. -/
def btreeInsert {β} (m : List (String × β)) (k : String) (v : β) :
    List (String × β) :=
  if m.any (·.1 == k) then m.map (fun e => if e.1 == k then (k, v) else e)
  else m ++ [(k, v)]

/-- `LiveExecutionBackend::new` (live.rs, lines 25–40): map the configured
commands to routables and collect them into a `BTreeMap` keyed by
`url_endpoint`. -/
def custom_commands_routables (custom_commands : List CustomCommand) :
    List (String × RoutableCommand) :=
  (custom_commands.map RoutableCommand.fromCustom).foldl
    (fun m c => btreeInsert m c.url_endpoint c) []

/-- `LiveExecutionBackend::custom_cmd_call` (live.rs, lines 212–222): look
the endpoint up in the registry — the Rust code calls `.unwrap()` on the
result, so a missing endpoint panics, modelled as `none` — then run the
command chain (abstracted as `runChain`). -/
def custom_cmd_call
    (routables : List (String × RoutableCommand))
    (runChain : List (List String) → Option String →
      Except Live.Error RunCommandOutput)
    (endpoint : String) (initial_stdin_input : Option String) :
    Option (Except Live.Error RunCommandOutput) :=
  match (routables.find? (·.1 == endpoint)).map (·.2) with
  | none => none
  | some cmd => some (runChain cmd.runCmd initial_stdin_input)

end Routing

/-! ## Concrete fixtures used to instantiate the theorems -/

namespace Mock

/-- Discriminator for the one mock operation whose transition can break the
mount-implies-key invariant. -/
def MockOp.isMountDataset : MockOp → Bool
  | .mountDataset _ => true
  | _ => false

/-- Whether a mock result is the fault-injection `SimulatedError`. -/
def resultSimulated {α : Type} : Except ApiMockError α → Bool
  | .error (.SimulatedError _) => true
  | _ => false

/-- A mock state whose single dataset already has its key loaded but is not
mounted (state `Unlocked`), with correct passphrase `"pw1"`. -/
def unlockedMock : ApiMockInner :=
  { state := [("tank/data",
      { state :=
          { dataset_name := "tank/data", key_loaded := true, is_mounted := false }
        unlock_password := "pw1" })]
    erring_datasets := [] }

/-- A mock state whose single dataset is mounted (state `Mounted`), with
correct passphrase `"pw1"`. -/
def mountedMock : ApiMockInner :=
  { state := [("tank/data",
      { state :=
          { dataset_name := "tank/data", key_loaded := true, is_mounted := true }
        unlock_password := "pw1" })]
    erring_datasets := [] }

/-- A mock state with one healthy dataset and one erring dataset. -/
def erringMock : ApiMockInner :=
  { state := [("tank/data",
      { state :=
          { dataset_name := "tank/data", key_loaded := false, is_mounted := false }
        unlock_password := "pw1" })]
    erring_datasets := ["tank/bad"] }

end Mock

namespace Live

/-- A live configuration with ZFS enabled and no blacklist. -/
def enabledCfg : ZfsConfig :=
  { zfs_enabled := true, blacklisted_zfs_datasets := none }

/-- A modelled ZFS world with one locked dataset. -/
def lockedWorld : ZfsWorld :=
  { datasets := [("tank/data",
      { key_loaded := false, is_mounted := false, passphrase := "pw1" })] }

/-- A modelled ZFS world with one unlocked (key loaded, unmounted) dataset. -/
def unlockedWorld : ZfsWorld :=
  { datasets := [("tank/data",
      { key_loaded := true, is_mounted := false, passphrase := "pw1" })] }

end Live

namespace Cmd

/-- Oracle realizing the spec's chain-short-circuit scenario: `cmd_ok` exits
0, `cmd_fail` exits 7, any other argv would exit 0. -/
def shortCircuitOracle : OsOracle := fun cmd _ =>
  if cmd == ["cmd_ok"] then .spawned "ok-out" "" (some 0)
  else if cmd == ["cmd_fail"] then .spawned "fail-out" "fail-err" (some 7)
  else .spawned "never-out" "" (some 0)

/-- Oracle with a program whose spawn fails, a program killed by a signal
(no exit code), and an otherwise successful program. -/
def spawnFailOracle : OsOracle := fun cmd _ =>
  if cmd == ["missing"] then .spawnFailed "entity not found"
  else if cmd == ["killed"] then .spawned "part-out" "part-err" none
  else .spawned "ok" "" (some 0)

end Cmd

namespace Routing

/-- First half of the endpoint-collision pair: one invocation whose single
token is the two-word string `"a b"`. -/
def collideA : CustomCommand :=
  { label := "svc"
    url_endpoint := none
    runCmd := .Chained [["a b"]]
    stdin_allow := false
    stdin_placeholder_text := ""
    stdin_is_password := true
    enabled := true }

/-- Second half of the endpoint-collision pair: one invocation with the two
tokens `"a"`, `"b"`, joining to the same string as `collideA`. -/
def collideB : CustomCommand :=
  { label := "svc"
    url_endpoint := none
    runCmd := .Chained [["a", "b"]]
    stdin_allow := false
    stdin_placeholder_text := ""
    stdin_is_password := true
    enabled := true }

/-- A command with an explicitly configured endpoint. -/
def statusCmd : CustomCommand :=
  { label := "status"
    url_endpoint := some "status"
    runCmd := .Single ["systemctl", "status"]
    stdin_allow := false
    stdin_placeholder_text := ""
    stdin_is_password := true
    enabled := true }

/-- The registry built from the single `statusCmd`. -/
def statusRegistry : List (String × RoutableCommand) :=
  custom_commands_routables [statusCmd]

/-- A chain runner that always succeeds, for exercising `custom_cmd_call`. -/
def trivialRunner :
    List (List String) → Option String → Except Live.Error RunCommandOutput :=
  fun _ _ => .ok { stdout := "", stderr := "", error_code := 0 }

end Routing

/-! # Helper lemmas -/

namespace Mock

theorem mapGet_cons (e : String × MockDatasetDetails)
    (rest : List (String × MockDatasetDetails)) (k : String) :
    mapGet (e :: rest) k = if e.1 == k then some e.2 else mapGet rest k := by
  by_cases h : e.1 == k <;> simp [mapGet, List.find?_cons, h]

theorem mapSet_cons (e : String × MockDatasetDetails)
    (rest : List (String × MockDatasetDetails)) (k : String)
    (f : MockDatasetDetails → MockDatasetDetails) :
    mapSet (e :: rest) k f =
      if e.1 == k then (e.1, f e.2) :: rest else e :: mapSet rest k f := rfl

theorem mapGet_mapSet_self (m : List (String × MockDatasetDetails)) (k : String)
    (f : MockDatasetDetails → MockDatasetDetails) :
    mapGet (mapSet m k f) k = (mapGet m k).map f := by
  induction m with
  | nil => simp [mapGet, mapSet]
  | cons e rest ih =>
    by_cases h : e.1 == k
    · simp [mapSet_cons, mapGet_cons, h]
    · simp [mapSet_cons, mapGet_cons, h, ih]

theorem mapSet_fixpoint (m : List (String × MockDatasetDetails)) (k : String)
    (f : MockDatasetDetails → MockDatasetDetails) (d : MockDatasetDetails)
    (hget : mapGet m k = some d) (hf : f d = d) :
    mapSet m k f = m := by
  induction m with
  | nil => simp [mapGet] at hget
  | cons e rest ih =>
    rw [mapGet_cons] at hget
    by_cases h : e.1 == k
    · simp only [h, if_true, Option.some.injEq] at hget
      subst hget
      simp [mapSet_cons, h, hf]
    · simp only [h, if_false] at hget
      simp [mapSet_cons, h, ih hget]

theorem mapSet_all (p : String × MockDatasetDetails → Bool)
    (m : List (String × MockDatasetDetails)) (k : String)
    (f : MockDatasetDetails → MockDatasetDetails)
    (h : m.all p = true)
    (hf : ∀ d, mapGet m k = some d → p (k, d) = true → p (k, f d) = true) :
    (mapSet m k f).all p = true := by
  induction m with
  | nil => simp [mapSet]
  | cons e rest ih =>
    rw [List.all_cons, Bool.and_eq_true] at h
    obtain ⟨h1, h2⟩ := h
    by_cases hek : e.1 == k
    · have hk : e.1 = k := by exact eq_of_beq hek
      rw [mapSet_cons]
      simp only [hek, if_true, List.all_cons, Bool.and_eq_true]
      refine ⟨?_, h2⟩
      have hget : mapGet (e :: rest) k = some e.2 := by
        rw [mapGet_cons]; simp [hek]
      have hpe : p (k, e.2) = true := by
        rw [← hk]; simpa using h1
      simpa [hk] using hf e.2 hget hpe
    · rw [mapSet_cons]
      simp only [hek, Bool.false_eq_true, if_false, List.all_cons, Bool.and_eq_true]
      refine ⟨h1, ih h2 ?_⟩
      intro d hd hp
      refine hf d ?_ hp
      rw [mapGet_cons]
      simp [hek, hd]

theorem invariant_load_key (inner : ApiMockInner) (n p : String)
    (h : invariantHolds inner = true) :
    invariantHolds (load_key inner n p).1 = true := by
  by_cases hm : n ∈ inner.erring_datasets
  · simpa [load_key, hm] using h
  · cases hget : mapGet inner.state n with
    | none => simpa [load_key, hm, hget] using h
    | some d =>
      by_cases hp : p == d.unlock_password
      · simp only [load_key, hm, if_false, hget, hp, if_true]
        unfold invariantHolds at h ⊢
        exact mapSet_all _ _ _ _ h (fun d' _ _ => by simp)
      · simpa [load_key, hm, hget, hp] using h

theorem invariant_unload_key (inner : ApiMockInner) (n : String)
    (h : invariantHolds inner = true) :
    invariantHolds (unload_key inner n).1 = true := by
  by_cases hm : n ∈ inner.erring_datasets
  · simpa [unload_key, hm] using h
  · cases hget : mapGet inner.state n with
    | none => simpa [unload_key, hm, hget] using h
    | some d =>
      by_cases hmt : d.state.is_mounted
      · simpa [unload_key, hm, hget, hmt] using h
      · simp only [unload_key, hm, if_false, hget, hmt, Bool.not_false, if_true]
        unfold invariantHolds at h ⊢
        refine mapSet_all _ _ _ _ h (fun d' hd' _ => ?_)
        rw [hget] at hd'
        cases hd'
        simp [Bool.eq_false_iff.mpr hmt]

theorem invariant_unmount_dataset (inner : ApiMockInner) (n : String)
    (h : invariantHolds inner = true) :
    invariantHolds (unmount_dataset inner n).1 = true := by
  by_cases hm : n ∈ inner.erring_datasets
  · simpa [unmount_dataset, hm] using h
  · cases hget : mapGet inner.state n with
    | none => simpa [unmount_dataset, hm, hget] using h
    | some d =>
      simp only [unmount_dataset, hm, if_false, hget]
      unfold invariantHolds at h ⊢
      exact mapSet_all _ _ _ _ h (fun d' _ _ => by simp)

end Mock

namespace Live

theorem get_cons (e : String × ZfsDataset) (rest : List (String × ZfsDataset))
    (k : String) :
    ZfsWorld.get ⟨e :: rest⟩ k = if e.1 == k then some e.2 else ZfsWorld.get ⟨rest⟩ k := by
  by_cases h : e.1 == k <;> simp [ZfsWorld.get, List.find?_cons, h]

theorem setFirst_all (p : String × ZfsDataset → Bool)
    (m : List (String × ZfsDataset)) (k : String) (f : ZfsDataset → ZfsDataset)
    (h : m.all p = true)
    (hf : ∀ d, ZfsWorld.get ⟨m⟩ k = some d → p (k, d) = true → p (k, f d) = true) :
    (ZfsWorld.set.setFirst m k f).all p = true := by
  induction m with
  | nil => simp [ZfsWorld.set.setFirst]
  | cons e rest ih =>
    rw [List.all_cons, Bool.and_eq_true] at h
    obtain ⟨h1, h2⟩ := h
    by_cases hek : e.1 == k
    · have hk : e.1 = k := by exact eq_of_beq hek
      rw [ZfsWorld.set.setFirst]
      simp only [hek, if_true, List.all_cons, Bool.and_eq_true]
      refine ⟨?_, h2⟩
      have hget : ZfsWorld.get ⟨e :: rest⟩ k = some e.2 := by
        rw [get_cons]; simp [hek]
      have hpe : p (k, e.2) = true := by
        rw [← hk]; simpa using h1
      simpa [hk] using hf e.2 hget hpe
    · rw [ZfsWorld.set.setFirst]
      simp only [hek, Bool.false_eq_true, if_false, List.all_cons, Bool.and_eq_true]
      refine ⟨h1, ih h2 ?_⟩
      intro d hd hp
      refine hf d ?_ hp
      rw [get_cons]
      simp [hek, hd]

theorem invariant_live_load_key (cfg : ZfsConfig) (w : ZfsWorld) (n p : String)
    (h : invariantHolds w = true) :
    invariantHolds (live_zfs_load_key cfg w n p).1 = true := by
  cases hen : zfs_enabled_or_error cfg with
  | error e => simpa [live_zfs_load_key, hen] using h
  | ok u =>
    cases u
    cases hbl : zfs_dataset_not_blacklisted_or_error cfg n with
    | error e => simpa [live_zfs_load_key, hen, hbl] using h
    | ok u =>
      cases u
      cases hkl : zfs_is_key_loaded w n with
      | none => simpa [live_zfs_load_key, hen, hbl, hkl] using h
      | some b =>
        cases b
        · cases hld : zfs_load_key w n p with
          | error e => simpa [live_zfs_load_key, hen, hbl, hkl, hld] using h
          | ok w' =>
            simp only [live_zfs_load_key, hen, hbl, hkl, hld]
            unfold zfs_load_key at hld
            cases hget : w.get n with
            | none => rw [hget] at hld; cases hld
            | some d =>
              rw [hget] at hld
              by_cases hp : p == d.passphrase
              · simp only [hp, if_true, Except.ok.injEq] at hld
                subst hld
                obtain ⟨ds⟩ := w
                simp only [invariantHolds, ZfsWorld.set] at h ⊢
                exact setFirst_all _ _ _ _ h (fun d' _ _ => by simp)
              · simp [hp] at hld
        · simpa [live_zfs_load_key, hen, hbl, hkl] using h

theorem invariant_live_mount (cfg : ZfsConfig) (w : ZfsWorld) (n : String)
    (h : invariantHolds w = true) :
    invariantHolds (live_zfs_mount_dataset cfg w n).1 = true := by
  cases hen : zfs_enabled_or_error cfg with
  | error e => simpa [live_zfs_mount_dataset, hen] using h
  | ok u =>
    cases u
    cases hbl : zfs_dataset_not_blacklisted_or_error cfg n with
    | error e => simpa [live_zfs_mount_dataset, hen, hbl] using h
    | ok u =>
      cases u
      cases hmt : zfs_is_dataset_mounted w n with
      | none => simpa [live_zfs_mount_dataset, hen, hbl, hmt] using h
      | some b =>
        cases b
        · cases hkl : zfs_is_key_loaded w n with
          | none => simpa [live_zfs_mount_dataset, hen, hbl, hmt, hkl] using h
          | some b2 =>
            cases b2
            · simpa [live_zfs_mount_dataset, hen, hbl, hmt, hkl] using h
            · cases hmd : zfs_mount_dataset w n with
              | error e =>
                simpa [live_zfs_mount_dataset, hen, hbl, hmt, hkl, hmd] using h
              | ok w' =>
                simp only [live_zfs_mount_dataset, hen, hbl, hmt, hkl, hmd]
                unfold zfs_mount_dataset at hmd
                cases hget : w.get n with
                | none => rw [hget] at hmd; cases hmd
                | some d =>
                  rw [hget] at hmd
                  simp only [Except.ok.injEq] at hmd
                  subst hmd
                  have hdk : d.key_loaded = true := by
                    unfold zfs_is_key_loaded at hkl
                    rw [hget] at hkl
                    simpa using hkl
                  obtain ⟨ds⟩ := w
                  simp only [invariantHolds, ZfsWorld.set] at h ⊢
                  refine setFirst_all _ _ _ _ h (fun d' hd' _ => ?_)
                  have : d' = d := by
                    rw [hget] at hd'
                    cases hd'
                    rfl
                  subst this
                  simp [hdk]
        · simpa [live_zfs_mount_dataset, hen, hbl, hmt] using h

end Live

namespace Cmd

theorem chainGo_nil (os : OsOracle) (stdin : Option String)
    (prev : RunCommandOutput) : chainGo os [] stdin prev = (.ok prev, []) := rfl

theorem chainGo_cons (os : OsOracle) (c : List String) (rest : List (List String))
    (stdin : Option String) (prev : RunCommandOutput) :
    chainGo os (c :: rest) stdin prev =
      match run_command os c stdin with
      | .error e =>
        (.ok { stdout := "", stderr := e.display, error_code := 253 }, [(c, stdin)])
      | .ok result =>
        if result.error_code != 0 then (.ok result, [(c, stdin)])
        else
          let next := chainGo os rest (some result.stdout) result
          (next.1, (c, stdin) :: next.2) := rfl

theorem chainGo_prev_irrel (os : OsOracle) (c : List String)
    (rest : List (List String)) (stdin : Option String)
    (prev₁ prev₂ : RunCommandOutput) :
    chainGo os (c :: rest) stdin prev₁ = chainGo os (c :: rest) stdin prev₂ := by
  rw [chainGo_cons, chainGo_cons]

theorem chainGo_isOk (os : OsOracle) :
    ∀ (cmds : List (List String)) (stdin : Option String)
      (prev : RunCommandOutput), (chainGo os cmds stdin prev).1.isOk = true := by
  intro cmds
  induction cmds with
  | nil => intro stdin prev; rfl
  | cons c rest ih =>
    intro stdin prev
    rw [chainGo_cons]
    cases run_command os c stdin with
    | error e => rfl
    | ok result =>
      by_cases h : result.error_code != 0
      · simp [h, Except.isOk, Except.toBool]
      · simpa [h] using ih (some result.stdout) result

theorem chainGo_threaded (os : OsOracle) :
    ∀ (cmds : List (List String)) (stdin : Option String)
      (prev : RunCommandOutput),
      threadedFrom os stdin (chainGo os cmds stdin prev).2 = true := by
  intro cmds
  induction cmds with
  | nil => intro stdin prev; rfl
  | cons c rest ih =>
    intro stdin prev
    rw [chainGo_cons]
    cases hrc : run_command os c stdin with
    | error e => simp [threadedFrom, hrc]
    | ok result =>
      by_cases h : result.error_code != 0
      · have h0 : ¬result.error_code = 0 := by simpa using h
        simp [h, threadedFrom, hrc, h0]
      · have h0 : result.error_code = 0 := by simpa using h
        simpa [h, threadedFrom, hrc, h0] using ih (some result.stdout) result

theorem chainGo_map_fst_prefix (os : OsOracle) :
    ∀ (cmds : List (List String)) (stdin : Option String)
      (prev : RunCommandOutput),
      (chainGo os cmds stdin prev).2.map Prod.fst <+: cmds := by
  intro cmds
  induction cmds with
  | nil => intro stdin prev; simp [chainGo_nil]
  | cons c rest ih =>
    intro stdin prev
    rw [chainGo_cons]
    cases run_command os c stdin with
    | error e => simp
    | ok result =>
      by_cases h : result.error_code != 0
      · simp [h]
      · simpa [h] using ih (some result.stdout) result

theorem runAllOk_chainGo (os : OsOracle) :
    ∀ (pre : List (List String)) (stdin s : Option String)
      (c : List String) (post : List (List String)) (prev : RunCommandOutput),
      runAllOk os pre stdin = some s →
      chainGo os (pre ++ c :: post) stdin prev =
        ((chainGo os (c :: post) s prev).1,
          okTrace os pre stdin ++ (chainGo os (c :: post) s prev).2) := by
  intro pre
  induction pre with
  | nil =>
    intro stdin s c post prev hall
    simp only [runAllOk, Option.some.injEq] at hall
    subst hall
    simp [okTrace]
  | cons a pre' ih =>
    intro stdin s c post prev hall
    simp only [runAllOk] at hall
    cases hrc : run_command os a stdin with
    | error e => rw [hrc] at hall; cases hall
    | ok r =>
      rw [hrc] at hall
      by_cases h0 : r.error_code = 0
      · simp only [h0, if_true] at hall
        have step := ih (some r.stdout) s c post r hall
        rw [List.cons_append, chainGo_cons, hrc]
        have hne : ¬r.error_code != 0 := by simp [h0]
        simp only [hne, if_false, step]
        rw [chainGo_prev_irrel os c post s r prev]
        simp [okTrace, hrc]
      · simp [h0] at hall


end Cmd

namespace Blake2

theorem compress_length (h m : List Nat) (t : Nat) (f : Bool) :
    (compress h m t f).length = 8 := by simp [compress]

theorem foldl_length8 {g : List Nat → Nat → List Nat}
    (hg : ∀ h i, (g h i).length = 8) :
    ∀ (l : List Nat) (h : List Nat), h.length = 8 → (l.foldl g h).length = 8 := by
  intro l
  induction l with
  | nil => intro h hh; simpa
  | cons a l ih => intro h hh; simpa using ih _ (hg h a)

theorem flatMap_length8 {g : Nat → List Nat} (hg : ∀ x, (g x).length = 8) :
    ∀ l : List Nat, (l.flatMap g).length = 8 * l.length := by
  intro l
  induction l with
  | nil => simp
  | cons a l ih => simp [ih, hg a]; ring

theorem blake2b512_length (input : List Nat) : (blake2b512 input).length = 64 := by
  unfold blake2b512
  rw [flatMap_length8 (fun x => by simp)]
  rw [foldl_length8 (fun h i => by split <;> exact compress_length ..)]
  · simp [blake2bIV]

end Blake2

namespace Routing

theorem getD_hexDigitChars_mem (i : Nat) (h : i < 16) :
    hexDigitChars.getD i '0' ∈ hexDigitChars := by
  interval_cases i <;> decide

theorem byteToHex_mem (b : Nat) : ∀ c ∈ byteToHex b, c ∈ hexDigitChars := by
  intro c hc
  simp only [byteToHex, List.mem_cons, List.not_mem_nil, or_false] at hc
  rcases hc with h | h <;> subst h
  · exact getD_hexDigitChars_mem _ (Nat.mod_lt _ (by norm_num))
  · exact getD_hexDigitChars_mem _ (Nat.mod_lt _ (by norm_num))

theorem asciiLower_hex_fix : ∀ c ∈ hexDigitChars, asciiLower c = c := by decide

theorem hash_string_length (s : String) : (hash_string s).length = 128 := by
  unfold hash_string toAsciiLowercase hexEncode
  show (List.map asciiLower _).length = 128
  rw [List.length_map]
  show (List.flatMap _ _).length = 128
  have h2 : ∀ b : Nat, (byteToHex b).length = 2 := fun b => rfl
  have : ∀ l : List Nat, (l.flatMap byteToHex).length = 2 * l.length := by
    intro l
    induction l with
    | nil => simp
    | cons a l ih => simp [ih, h2 a]; ring
  rw [this, Blake2.blake2b512_length]

theorem hash_string_chars (s : String) :
    ∀ c ∈ (hash_string s).data, c ∈ hexDigitChars := by
  intro c hc
  unfold hash_string toAsciiLowercase hexEncode at hc
  simp only [String.data] at hc
  rw [List.mem_map] at hc
  obtain ⟨a, ha, hac⟩ := hc
  rw [List.mem_flatMap] at ha
  obtain ⟨b, _, hab⟩ := ha
  have hmem := byteToHex_mem b a hab
  rw [← hac, asciiLower_hex_fix a hmem]
  exact hmem

end Routing

namespace Routing

theorem endpoint_of_none (c : CustomCommand) (hc : c.url_endpoint = none) :
    endpoint_from_custom_command c =
      hash_string (c.label ++ c.runCmd.as_string) := by
  unfold endpoint_from_custom_command
  rw [hc]

theorem collide_endpoint_eq :
    endpoint_from_custom_command collideA = endpoint_from_custom_command collideB := by
  rw [endpoint_of_none collideA rfl, endpoint_of_none collideB rfl]
  exact congrArg hash_string (by decide)

theorem routables_pair_collapse (c1 c2 : CustomCommand)
    (h : endpoint_from_custom_command c1 = endpoint_from_custom_command c2) :
    custom_commands_routables [c1, c2] =
      [(endpoint_from_custom_command c2, RoutableCommand.fromCustom c2)] := by
  have hb : ((endpoint_from_custom_command c1 ==
      endpoint_from_custom_command c2) = true) := by
    simp [h]
  simp only [custom_commands_routables, List.map_cons, List.map_nil,
    List.foldl_cons, List.foldl_nil, RoutableCommand.fromCustom, btreeInsert,
    List.any_nil, List.any_cons, Bool.false_eq_true, if_false, List.nil_append,
    Bool.or_false, hb, if_true, List.map_cons, List.map_nil]

end Routing

/-! # Claim theorems -/

/-- C1 counterexample: the claimed invariant `is_mounted ⇒ key_loaded` fails
on the code.  Seed the mock backend with one dataset (key not loaded, not
mounted) and call `mount_dataset` on it: the call succeeds — the Rust method
sets `is_mounted = true` without checking `key_loaded` — and the resulting
state has `is_mounted = true` with `key_loaded = false`. -/
theorem C1_counterexample :
    Mock.invariantHolds (Mock.new [("pool/data", "pw1")] []) = true ∧
    (Mock.mount_dataset (Mock.new [("pool/data", "pw1")] []) "pool/data").2 =
      .ok { dataset_name := "pool/data", is_mounted := true } ∧
    (Mock.mapGet
        (Mock.mount_dataset (Mock.new [("pool/data", "pw1")] []) "pool/data").1.state
        "pool/data").map (fun d => (d.state.key_loaded, d.state.is_mounted)) =
      some (false, true) ∧
    Mock.invariantHolds
      (Mock.mount_dataset (Mock.new [("pool/data", "pw1")] []) "pool/data").1 = false := by
  decide

/-- C1 (amended): in the live backend, every sequence of backend operations
(`zfs_load_key`, `zfs_mount_dataset`) preserves the invariant
`is_mounted ⇒ key_loaded`; in the mock backend every operation other than
`mount_dataset` preserves it, but `mount_dataset` does not check
`key_loaded`, so mounting a locked dataset violates the invariant (see the
counterexample). -/
theorem C1_theorem :
    (∀ (cfg : Live.ZfsConfig) (w : Live.ZfsWorld) (ops : List Live.LiveOp),
      Live.invariantHolds w = true →
      Live.invariantHolds (Live.applyOps cfg w ops) = true) ∧
    (∀ (inner : Mock.ApiMockInner) (ops : List Mock.MockOp),
      ops.all (fun op => !op.isMountDataset) = true →
      Mock.invariantHolds inner = true →
      Mock.invariantHolds (Mock.applyOps inner ops) = true) := by
  constructor
  · intro cfg w ops
    induction ops generalizing w with
    | nil => intro h; simpa [Live.applyOps] using h
    | cons op rest ih =>
      intro h
      have step : Live.invariantHolds (Live.applyOp cfg w op) = true := by
        cases op with
        | loadKey n p => exact Live.invariant_live_load_key cfg w n p h
        | mountDataset n => exact Live.invariant_live_mount cfg w n h
      simpa [Live.applyOps, List.foldl_cons] using ih (Live.applyOp cfg w op) step
  · intro inner ops
    induction ops generalizing inner with
    | nil => intro _ h; simpa [Mock.applyOps] using h
    | cons op rest ih =>
      intro hall h
      rw [List.all_cons, Bool.and_eq_true] at hall
      obtain ⟨hop, hrest⟩ := hall
      have step : Mock.invariantHolds (Mock.applyOp inner op) = true := by
        cases op with
        | loadKey n p => exact Mock.invariant_load_key inner n p h
        | mountDataset n => simp [Mock.MockOp.isMountDataset] at hop
        | unloadKey n => exact Mock.invariant_unload_key inner n h
        | unmountDataset n => exact Mock.invariant_unmount_dataset inner n h
      simpa [Mock.applyOps, List.foldl_cons] using ih (Mock.applyOp inner op) hrest step

/-- C1 witness: the amended invariant theorem applied to a concrete live
world (load key then mount) and to a concrete mock state with a sequence of
non-mount operations. -/
theorem C1_witness :
    Live.invariantHolds (Live.applyOps Live.enabledCfg Live.lockedWorld
      [.loadKey "tank/data" "pw1", .mountDataset "tank/data"]) = true ∧
    Mock.invariantHolds (Mock.applyOps (Mock.new [("pool/data", "pw1")] [])
      [.loadKey "pool/data" "pw1", .unloadKey "pool/data",
        .unmountDataset "pool/data"]) = true :=
  ⟨C1_theorem.1 Live.enabledCfg Live.lockedWorld
      [.loadKey "tank/data" "pw1", .mountDataset "tank/data"] (by decide),
    C1_theorem.2 (Mock.new [("pool/data", "pw1")] [])
      [.loadKey "pool/data" "pw1", .unloadKey "pool/data",
        .unmountDataset "pool/data"] (by decide) (by decide)⟩

/-- C2 counterexample: in the mock backend, `mount_dataset` on an existing
dataset whose key is not loaded does not fail with a key-not-loaded error
(the mock's error type has no such variant): it silently mounts, returning
success and setting `is_mounted = true`. -/
theorem C2_counterexample :
    (Mock.mount_dataset (Mock.new [("tank/enc", "secret")] []) "tank/enc").2 =
      .ok { dataset_name := "tank/enc", is_mounted := true } ∧
    (Mock.mapGet
        (Mock.mount_dataset (Mock.new [("tank/enc", "secret")] []) "tank/enc").1.state
        "tank/enc").map (fun d => d.state.is_mounted) = some true := by
  decide

/-- C2 (amended): in the live backend, `zfs_mount_dataset` on an existing,
enabled, non-blacklisted dataset that is unmounted with its key not loaded
always fails with `KeyNotLoadedForDataset` and leaves the world unchanged;
the mock backend instead mounts silently (see the counterexample). -/
theorem C2_theorem (cfg : Live.ZfsConfig) (w : Live.ZfsWorld) (n : String)
    (d : Live.ZfsDataset) (hen : cfg.zfs_enabled = true)
    (hbl : Live.zfs_dataset_blacklisted cfg n = false)
    (hget : w.get n = some d) (hm : d.is_mounted = false)
    (hk : d.key_loaded = false) :
    Live.live_zfs_mount_dataset cfg w n =
      (w, .error (.KeyNotLoadedForDataset n)) := by
  unfold Live.live_zfs_mount_dataset Live.zfs_enabled_or_error
    Live.zfs_dataset_not_blacklisted_or_error
  simp [hen, hbl, Live.zfs_is_dataset_mounted, Live.zfs_is_key_loaded, hget, hm, hk]

/-- C2 witness: the live mount guard applied to a concrete locked dataset. -/
theorem C2_witness :
    Live.live_zfs_mount_dataset Live.enabledCfg Live.lockedWorld "tank/data" =
      (Live.lockedWorld, .error (.KeyNotLoadedForDataset "tank/data")) :=
  C2_theorem Live.enabledCfg Live.lockedWorld "tank/data"
    { key_loaded := false, is_mounted := false, passphrase := "pw1" }
    rfl (by decide) (by decide) rfl rfl

/-- C3: `chain_commands` runs the chain's invocations strictly in order —
its trace of performed invocations is a prefix of the chain, threaded so
that the caller-supplied stdin reaches only the first invocation and each
later invocation receives the captured stdout of its predecessor, continuing
only past invocations that exited 0 — and when, after a prefix `pre` of
all-zero invocations, invocation `c` completes with a non-zero exit code,
the chain's result is exactly `c`'s captured output and code, and the trace
ends at `c`: no later invocation is ever run. -/
theorem C3_theorem :
    (∀ (os : Cmd.OsOracle) (cmds : List (List String)) (stdin : Option String),
      Cmd.threadedFrom os stdin (Cmd.chain_trace os cmds stdin) = true ∧
      (Cmd.chain_trace os cmds stdin).map Prod.fst <+: cmds) ∧
    (∀ (os : Cmd.OsOracle) (stdin s : Option String) (pre : List (List String))
      (c : List String) (post : List (List String)) (r : RunCommandOutput),
      Cmd.runAllOk os pre stdin = some s →
      Cmd.run_command os c s = .ok r →
      r.error_code ≠ 0 →
      Cmd.chain_commands os (pre ++ c :: post) stdin = .ok r ∧
      Cmd.chain_trace os (pre ++ c :: post) stdin =
        Cmd.okTrace os pre stdin ++ [(c, s)]) := by
  constructor
  · intro os cmds stdin
    unfold Cmd.chain_trace
    by_cases h : cmds.isEmpty
    · simp [h, Cmd.threadedFrom]
    · simp only [h, Bool.false_eq_true, if_false]
      exact ⟨Cmd.chainGo_threaded os cmds stdin _,
        Cmd.chainGo_map_fst_prefix os cmds stdin _⟩
  · intro os stdin s pre c post r hall hrun hne
    have hne' : (r.error_code != 0) = true := by simpa using hne
    have hcons : Cmd.chainGo os (c :: post) s
        { stdout := "", stderr := "", error_code := 254 } = (.ok r, [(c, s)]) := by
      rw [Cmd.chainGo_cons, hrun]
      simp [hne']
    have happ := Cmd.runAllOk_chainGo os pre stdin s c post
      { stdout := "", stderr := "", error_code := 254 } hall
    have hemp : (pre ++ c :: post).isEmpty = false := by simp
    constructor
    · simp only [Cmd.chain_commands, hemp, Bool.false_eq_true, if_false]
      rw [happ, hcons]
    · simp only [Cmd.chain_trace, hemp, Bool.false_eq_true, if_false]
      rw [happ, hcons]

/-- C3 witness: the spec's short-circuit scenario — chain
`[cmd_ok (exit 0), cmd_fail (exit 7), cmd_never_run]` returns `cmd_fail`'s
output and code, and the trace stops at `cmd_fail`, with `cmd_ok`'s stdout
fed to `cmd_fail` as stdin. -/
theorem C3_witness :
    Cmd.chain_commands Cmd.shortCircuitOracle
      [["cmd_ok"], ["cmd_fail"], ["cmd_never_run"]] none =
      .ok { stdout := "fail-out", stderr := "fail-err", error_code := 7 } ∧
    Cmd.chain_trace Cmd.shortCircuitOracle
      [["cmd_ok"], ["cmd_fail"], ["cmd_never_run"]] none =
      Cmd.okTrace Cmd.shortCircuitOracle [["cmd_ok"]] none ++
        [(["cmd_fail"], some "ok-out")] :=
  C3_theorem.2 Cmd.shortCircuitOracle none (some "ok-out") [["cmd_ok"]]
    ["cmd_fail"] [["cmd_never_run"]]
    { stdout := "fail-out", stderr := "fail-err", error_code := 7 }
    (by decide) (by decide) (by decide)

/-- C4: for a non-empty chain `chain_commands` always returns a
`RunCommandOutput` (never an error value); a spawn failure inside the chain
yields the synthetic result `{stdout = "", stderr = the failure message,
exit code 253}`; a child that ran but reports no exit code (killed by a
signal) is recorded by `run_command` with exit code 255; the only error
value `chain_commands` can return is `NoCommandsProvided`, on the empty
chain. -/
theorem C4_theorem :
    (∀ (os : Cmd.OsOracle) (cmds : List (List String)) (stdin : Option String),
      cmds ≠ [] → (Cmd.chain_commands os cmds stdin).isOk = true) ∧
    (∀ (os : Cmd.OsOracle) (stdin s : Option String) (pre : List (List String))
      (c : List String) (post : List (List String)) (msg : String),
      Cmd.runAllOk os pre stdin = some s →
      c ≠ [] →
      os c s = .spawnFailed msg →
      Cmd.chain_commands os (pre ++ c :: post) stdin =
        .ok { stdout := "", stderr := "Call failed: " ++ msg,
              error_code := 253 }) ∧
    (∀ (os : Cmd.OsOracle) (c : List String) (stdin : Option String)
      (out err : String),
      c ≠ [] → os c stdin = .spawned out err none →
      Cmd.run_command os c stdin =
        .ok { stdout := out, stderr := err, error_code := 255 }) ∧
    (∀ (os : Cmd.OsOracle) (stdin : Option String),
      Cmd.chain_commands os [] stdin = .error .NoCommandsProvided) := by
  refine ⟨?_, ?_, ?_, ?_⟩
  · intro os cmds stdin hne
    have hemp : cmds.isEmpty = false := by
      cases cmds with
      | nil => cases hne rfl
      | cons a l => rfl
    simp only [Cmd.chain_commands, hemp, Bool.false_eq_true, if_false]
    exact Cmd.chainGo_isOk os cmds stdin _
  · intro os stdin s pre c post msg hall hcne hos
    obtain ⟨a, rest, rfl⟩ : ∃ a rest, c = a :: rest := by
      cases c with
      | nil => cases hcne rfl
      | cons a rest => exact ⟨a, rest, rfl⟩
    have hrun : Cmd.run_command os (a :: rest) s = .error (.CallFailed msg) := by
      unfold Cmd.run_command
      rw [hos]
    have hcons : Cmd.chainGo os ((a :: rest) :: post) s
        { stdout := "", stderr := "", error_code := 254 } =
        (.ok { stdout := "", stderr := "Call failed: " ++ msg, error_code := 253 },
          [((a :: rest), s)]) := by
      rw [Cmd.chainGo_cons, hrun]
      rfl
    have happ := Cmd.runAllOk_chainGo os pre stdin s (a :: rest) post
      { stdout := "", stderr := "", error_code := 254 } hall
    have hemp : (pre ++ (a :: rest) :: post).isEmpty = false := by simp
    simp only [Cmd.chain_commands, hemp, Bool.false_eq_true, if_false]
    rw [happ, hcons]
  · intro os c stdin out err hcne hos
    obtain ⟨a, rest, rfl⟩ : ∃ a rest, c = a :: rest := by
      cases c with
      | nil => cases hcne rfl
      | cons a rest => exact ⟨a, rest, rfl⟩
    unfold Cmd.run_command
    rw [hos]
    rfl
  · intro os stdin
    rfl

/-- C4 witness: the non-empty-chain, spawn-failure (exit 253), killed-child
(exit 255) and empty-chain cases, each at a concrete input. -/
theorem C4_witness :
    (Cmd.chain_commands Cmd.spawnFailOracle [["ok"], ["missing"]] none).isOk = true ∧
    Cmd.chain_commands Cmd.spawnFailOracle [["ok"], ["missing"], ["never"]] none =
      .ok { stdout := "", stderr := "Call failed: entity not found",
            error_code := 253 } ∧
    Cmd.run_command Cmd.spawnFailOracle ["killed"] none =
      .ok { stdout := "part-out", stderr := "part-err", error_code := 255 } ∧
    Cmd.chain_commands Cmd.spawnFailOracle [] none = .error .NoCommandsProvided :=
  ⟨C4_theorem.1 Cmd.spawnFailOracle [["ok"], ["missing"]] none (by decide),
    C4_theorem.2.1 Cmd.spawnFailOracle none (some "ok") [["ok"]] ["missing"]
      [["never"]] "entity not found" (by decide) (by decide) (by decide),
    C4_theorem.2.2.1 Cmd.spawnFailOracle ["killed"] none "part-out" "part-err"
      (by decide) (by decide),
    C4_theorem.2.2.2 Cmd.spawnFailOracle none⟩

/-- C5 counterexample: two command definitions with the same label, no
explicit endpoint and *different* argv chains — `[["a b"]]` versus
`[["a", "b"]]` — derive the *same* endpoint, because the argv chain is
joined with spaces before hashing; so differing argv does not guarantee
differing endpoints. -/
theorem C5_counterexample :
    Routing.collideA.runCmd.commands ≠ Routing.collideB.runCmd.commands ∧
    Routing.collideA.label = Routing.collideB.label ∧
    Routing.endpoint_from_custom_command Routing.collideA =
      Routing.endpoint_from_custom_command Routing.collideB :=
  ⟨by decide, rfl, Routing.collide_endpoint_eq⟩

/-- C5 (amended): for a command with no explicit endpoint the derived
endpoint is exactly the Blake2b-512 hash of the label concatenated with the
space/pipe-joined argv chain — a deterministic, 128-character lowercase
hexadecimal string; identical label and argv always give the identical
endpoint, but two definitions differing in argv may collide when their
joined argv strings coincide (see the counterexample). -/
theorem C5_theorem :
    (∀ c1 c2 : Routing.CustomCommand,
      c1.url_endpoint = none → c2.url_endpoint = none →
      c1.label = c2.label → c1.runCmd = c2.runCmd →
      Routing.endpoint_from_custom_command c1 =
        Routing.endpoint_from_custom_command c2) ∧
    (∀ c : Routing.CustomCommand, c.url_endpoint = none →
      Routing.endpoint_from_custom_command c =
        Routing.hash_string (c.label ++ c.runCmd.as_string) ∧
      (Routing.endpoint_from_custom_command c).length = 128 ∧
      ∀ ch ∈ (Routing.endpoint_from_custom_command c).data,
        ch ∈ Routing.hexDigitChars) := by
  constructor
  · intro c1 c2 h1 h2 hl hr
    rw [Routing.endpoint_of_none c1 h1, Routing.endpoint_of_none c2 h2, hl, hr]
  · intro c hc
    refine ⟨Routing.endpoint_of_none c hc, ?_, ?_⟩
    · rw [Routing.endpoint_of_none c hc]
      exact Routing.hash_string_length _
    · rw [Routing.endpoint_of_none c hc]
      exact Routing.hash_string_chars _

/-- C5 witness: the amended endpoint-derivation theorem applied to concrete
commands — determinism on two equal definitions, and the hash shape for one
of them. -/
theorem C5_witness :
    Routing.endpoint_from_custom_command Routing.collideA =
      Routing.endpoint_from_custom_command Routing.collideA ∧
    (Routing.endpoint_from_custom_command Routing.collideA =
      Routing.hash_string (Routing.collideA.label ++
        Routing.collideA.runCmd.as_string) ∧
    (Routing.endpoint_from_custom_command Routing.collideA).length = 128 ∧
    ∀ ch ∈ (Routing.endpoint_from_custom_command Routing.collideA).data,
      ch ∈ Routing.hexDigitChars) :=
  ⟨C5_theorem.1 Routing.collideA Routing.collideA rfl rfl rfl rfl,
    C5_theorem.2 Routing.collideA rfl⟩

/-- C6 counterexample: `custom_cmd_call` with an endpoint that is not among
the registered commands does not return the command-not-found error — the
Rust method calls `.unwrap()` on the registry lookup, i.e. it panics
(modelled as `none`). -/
theorem C6_counterexample :
    Routing.custom_cmd_call Routing.statusRegistry Routing.trivialRunner
      "nope" none = none ∧
    Routing.custom_cmd_call Routing.statusRegistry Routing.trivialRunner
      "nope" none ≠
      some (.error (.RegisteredCmdMissing "nope")) := by
  decide

/-- C6 (amended): for every registry, chain runner, endpoint and optional
stdin, `custom_cmd_call` on an endpoint missing from the registry panics
(the modelled `.unwrap()`, `none`) instead of returning an error value, and
on a registered endpoint it runs that command's chain. -/
theorem C6_theorem (routables : List (String × Routing.RoutableCommand))
    (runChain : List (List String) → Option String →
      Except Live.Error RunCommandOutput)
    (endpoint : String) (stdin : Option String) :
    (routables.find? (·.1 == endpoint) = none →
      Routing.custom_cmd_call routables runChain endpoint stdin = none) ∧
    (∀ cmd, (routables.find? (·.1 == endpoint)).map (·.2) = some cmd →
      Routing.custom_cmd_call routables runChain endpoint stdin =
        some (runChain cmd.runCmd stdin)) := by
  constructor
  · intro h
    unfold Routing.custom_cmd_call
    rw [h]
    rfl
  · intro cmd h
    unfold Routing.custom_cmd_call
    rw [h]

/-- C6 witness: `custom_cmd_call` on the concrete one-command registry — a
missing endpoint panics (`none`), the registered endpoint runs the chain. -/
theorem C6_witness :
    Routing.custom_cmd_call Routing.statusRegistry Routing.trivialRunner
      "absent" none = none ∧
    Routing.custom_cmd_call Routing.statusRegistry Routing.trivialRunner
      "status" none =
      some (Routing.trivialRunner
        (Routing.RoutableCommand.fromCustom Routing.statusCmd).runCmd none) :=
  ⟨(C6_theorem Routing.statusRegistry Routing.trivialRunner "absent" none).1
      (by decide),
    (C6_theorem Routing.statusRegistry Routing.trivialRunner "status" none).2
      (Routing.RoutableCommand.fromCustom Routing.statusCmd) (by decide)⟩

/-- C7 counterexample: in the mock backend, `load_key` on a dataset whose
key is already loaded still checks the passphrase: with an incorrect
passphrase it fails with `InvalidEncryptionPassword` instead of returning
success. -/
theorem C7_counterexample :
    Mock.unlockedMock.state = [("tank/data",
      { state :=
          { dataset_name := "tank/data", key_loaded := true, is_mounted := false }
        unlock_password := "pw1" })] ∧
    Mock.load_key Mock.unlockedMock "tank/data" "wrong" =
      (Mock.unlockedMock, .error .InvalidEncryptionPassword) := by
  decide

/-- C7 (amended): in the live backend, `zfs_load_key` on an enabled,
non-blacklisted dataset whose key is already loaded is an idempotent no-op
returning success for every passphrase, without performing a key-load and
without changing the world; the mock backend checks the passphrase even when
the key is loaded — a correct passphrase is a no-op success, an incorrect
one fails with `InvalidEncryptionPassword` (see the counterexample). -/
theorem C7_theorem :
    (∀ (cfg : Live.ZfsConfig) (w : Live.ZfsWorld) (n p : String),
      cfg.zfs_enabled = true → Live.zfs_dataset_blacklisted cfg n = false →
      Live.zfs_is_key_loaded w n = some true →
      Live.live_zfs_load_key cfg w n p =
        (w, .ok { dataset_name := n, key_loaded := true })) ∧
    (∀ (inner : Mock.ApiMockInner) (n p : String) (d : Mock.MockDatasetDetails),
      n ∉ inner.erring_datasets → Mock.mapGet inner.state n = some d →
      d.state.key_loaded = true →
      (p = d.unlock_password →
        Mock.load_key inner n p =
          (inner, .ok { dataset_name := n, key_loaded := true })) ∧
      (p ≠ d.unlock_password →
        Mock.load_key inner n p =
          (inner, .error .InvalidEncryptionPassword))) := by
  constructor
  · intro cfg w n p hen hbl hkl
    unfold Live.live_zfs_load_key Live.zfs_enabled_or_error
      Live.zfs_dataset_not_blacklisted_or_error
    simp [hen, hbl, hkl]
  · intro inner n p d hnm hget hkl
    constructor
    · intro hp
      have hfix : (fun d' : Mock.MockDatasetDetails =>
          { d' with state := { d'.state with key_loaded := true } }) d = d := by
        cases d with
        | mk st pw =>
          cases st with
          | mk nm kl mt =>
            simp only [Mock.MockDatasetDetails.state,
              DatasetFullMountState.key_loaded] at hkl
            simp [hkl]
      have hmset := Mock.mapSet_fixpoint inner.state n
        (fun d' => { d' with state := { d'.state with key_loaded := true } })
        d hget hfix
      unfold Mock.load_key
      rw [if_neg hnm]
      have hpb : (p == d.unlock_password) = true := by simp [hp]
      simp only [hget, hpb, if_true, hmset]
    · intro hp
      unfold Mock.load_key
      rw [if_neg hnm]
      have hpb : (p == d.unlock_password) = false := by simp [hp]
      simp only [hget, hpb, Bool.false_eq_true, if_false]

/-- C7 witness: the idempotent key-load on a concrete unlocked live world
with an arbitrary passphrase, and the mock behavior on a concrete unlocked
mock state with the correct passphrase. -/
theorem C7_witness :
    Live.live_zfs_load_key Live.enabledCfg Live.unlockedWorld "tank/data"
      "anything-at-all" =
      (Live.unlockedWorld,
        .ok { dataset_name := "tank/data", key_loaded := true }) ∧
    Mock.load_key Mock.unlockedMock "tank/data" "pw1" =
      (Mock.unlockedMock, .ok { dataset_name := "tank/data", key_loaded := true }) :=
  ⟨C7_theorem.1 Live.enabledCfg Live.unlockedWorld "tank/data" "anything-at-all"
      rfl (by decide) (by decide),
    (C7_theorem.2 Mock.unlockedMock "tank/data" "pw1"
        { state :=
            { dataset_name := "tank/data", key_loaded := true, is_mounted := false }
          unlock_password := "pw1" }
        (by decide) (by decide) rfl).1 rfl⟩

/-- C8: in the mock backend, `unload_key` on a mounted dataset always fails
with `CannotUnlockKeyForMountDataset` and leaves the whole state unchanged,
and on an unmounted dataset it succeeds, setting `key_loaded := false`
(state `Locked`). -/
theorem C8_theorem (inner : Mock.ApiMockInner) (n : String)
    (d : Mock.MockDatasetDetails) (hnm : n ∉ inner.erring_datasets)
    (hget : Mock.mapGet inner.state n = some d) :
    (d.state.is_mounted = true →
      Mock.unload_key inner n =
        (inner, .error (.CannotUnlockKeyForMountDataset n))) ∧
    (d.state.is_mounted = false →
      (Mock.unload_key inner n).2 =
        .ok { dataset_name := n, key_loaded := false } ∧
      Mock.mapGet (Mock.unload_key inner n).1.state n =
        some { d with state := { d.state with key_loaded := false } }) := by
  constructor
  · intro hm
    unfold Mock.unload_key
    rw [if_neg hnm]
    simp [hget, hm]
  · intro hm
    unfold Mock.unload_key
    rw [if_neg hnm]
    simp only [hget, hm, Bool.not_false, if_true]
    exact ⟨trivial, by simp [Mock.mapGet_mapSet_self, hget, hm]⟩

/-- C8 witness: the unload guard on a concrete mounted mock dataset, and the
successful unload (transition to `Locked`) on a concrete unlocked one. -/
theorem C8_witness :
    Mock.unload_key Mock.mountedMock "tank/data" =
      (Mock.mountedMock, .error (.CannotUnlockKeyForMountDataset "tank/data")) ∧
    ((Mock.unload_key Mock.unlockedMock "tank/data").2 =
      .ok { dataset_name := "tank/data", key_loaded := false } ∧
    Mock.mapGet (Mock.unload_key Mock.unlockedMock "tank/data").1.state
        "tank/data" =
      some { state :=
            { dataset_name := "tank/data", key_loaded := false,
              is_mounted := false }
             unlock_password := "pw1" }) :=
  ⟨(C8_theorem Mock.mountedMock "tank/data"
      { state :=
          { dataset_name := "tank/data", key_loaded := true, is_mounted := true }
        unlock_password := "pw1" }
      (by decide) (by decide)).1 rfl,
    (C8_theorem Mock.unlockedMock "tank/data"
      { state :=
          { dataset_name := "tank/data", key_loaded := true, is_mounted := false }
        unlock_password := "pw1" }
      (by decide) (by decide)).2 rfl⟩

/-- C9: in the mock backend, for a dataset in the erring set every
per-dataset operation (`load_key`, `mount_dataset`, `unload_key`,
`unmount_dataset`, `encrypted_dataset_state`) returns `SimulatedError` for
that dataset and changes no state; for a dataset not in the erring set, no
operation ever returns a `SimulatedError`. -/
theorem C9_theorem (inner : Mock.ApiMockInner) (n p : String) :
    (n ∈ inner.erring_datasets →
      Mock.load_key inner n p = (inner, .error (.SimulatedError n)) ∧
      Mock.mount_dataset inner n = (inner, .error (.SimulatedError n)) ∧
      Mock.unload_key inner n = (inner, .error (.SimulatedError n)) ∧
      Mock.unmount_dataset inner n = (inner, .error (.SimulatedError n)) ∧
      Mock.encrypted_dataset_state inner n = .error (.SimulatedError n)) ∧
    (n ∉ inner.erring_datasets →
      Mock.resultSimulated (Mock.load_key inner n p).2 = false ∧
      Mock.resultSimulated (Mock.mount_dataset inner n).2 = false ∧
      Mock.resultSimulated (Mock.unload_key inner n).2 = false ∧
      Mock.resultSimulated (Mock.unmount_dataset inner n).2 = false ∧
      Mock.resultSimulated (Mock.encrypted_dataset_state inner n) = false) := by
  constructor
  · intro h
    exact ⟨by simp [Mock.load_key, h], by simp [Mock.mount_dataset, h],
      by simp [Mock.unload_key, h], by simp [Mock.unmount_dataset, h],
      by simp [Mock.encrypted_dataset_state, h]⟩
  · intro h
    refine ⟨?_, ?_, ?_, ?_, ?_⟩
    · unfold Mock.load_key
      rw [if_neg h]
      cases hget : Mock.mapGet inner.state n with
      | none => rfl
      | some d =>
        by_cases hp : (p == d.unlock_password) = true
        · simp [hp, Mock.resultSimulated]
        · simp [hp, Mock.resultSimulated]
    · unfold Mock.mount_dataset
      rw [if_neg h]
      cases hget : Mock.mapGet inner.state n with
      | none => rfl
      | some d => rfl
    · unfold Mock.unload_key
      rw [if_neg h]
      cases hget : Mock.mapGet inner.state n with
      | none => rfl
      | some d =>
        by_cases hm : d.state.is_mounted = true
        · simp [hm, Mock.resultSimulated]
        · simp [hm, Mock.resultSimulated]
    · unfold Mock.unmount_dataset
      rw [if_neg h]
      cases hget : Mock.mapGet inner.state n with
      | none => rfl
      | some d => rfl
    · unfold Mock.encrypted_dataset_state
      rw [if_neg h]
      cases hget : Mock.mapGet inner.state n with
      | none => rfl
      | some d => rfl

/-- C9 witness: the fault-injection dichotomy on a concrete mock state with
one erring and one healthy dataset. -/
theorem C9_witness :
    (Mock.load_key Mock.erringMock "tank/bad" "pw" =
      (Mock.erringMock, .error (.SimulatedError "tank/bad")) ∧
    Mock.mount_dataset Mock.erringMock "tank/bad" =
      (Mock.erringMock, .error (.SimulatedError "tank/bad")) ∧
    Mock.unload_key Mock.erringMock "tank/bad" =
      (Mock.erringMock, .error (.SimulatedError "tank/bad")) ∧
    Mock.unmount_dataset Mock.erringMock "tank/bad" =
      (Mock.erringMock, .error (.SimulatedError "tank/bad")) ∧
    Mock.encrypted_dataset_state Mock.erringMock "tank/bad" =
      .error (.SimulatedError "tank/bad")) ∧
    (Mock.resultSimulated (Mock.load_key Mock.erringMock "tank/data" "pw").2 = false ∧
    Mock.resultSimulated (Mock.mount_dataset Mock.erringMock "tank/data").2 = false ∧
    Mock.resultSimulated (Mock.unload_key Mock.erringMock "tank/data").2 = false ∧
    Mock.resultSimulated (Mock.unmount_dataset Mock.erringMock "tank/data").2 = false ∧
    Mock.resultSimulated (Mock.encrypted_dataset_state Mock.erringMock "tank/data") = false) :=
  ⟨(C9_theorem Mock.erringMock "tank/bad" "pw").1 (by decide),
    (C9_theorem Mock.erringMock "tank/data" "pw").2 (by decide)⟩

/-- C10: there are two distinct enabled command configurations with equal
labels and different argv chains — `[["a b"]]` and `[["a", "b"]]` — that
pass the duplicate validation of configuration loading yet derive the same
endpoint; building the backend's endpoint-keyed registry from them keeps
only the second command, silently dropping the first. -/
theorem C10_theorem :
    ∃ c1 c2 : Routing.CustomCommand,
      c1.enabled = true ∧ c2.enabled = true ∧ c1 ≠ c2 ∧
      c1.label = c2.label ∧
      c1.runCmd.commands ≠ c2.runCmd.commands ∧
      c1.url_endpoint = none ∧ c2.url_endpoint = none ∧
      Routing.validate_commands_list [c1, c2] = true ∧
      Routing.endpoint_from_custom_command c1 =
        Routing.endpoint_from_custom_command c2 ∧
      Routing.custom_commands_routables [c1, c2] =
        [(Routing.endpoint_from_custom_command c2,
          Routing.RoutableCommand.fromCustom c2)] :=
  ⟨Routing.collideA, Routing.collideB, rfl, rfl, by decide, rfl, by decide,
    rfl, rfl, by decide, Routing.collide_endpoint_eq,
    Routing.routables_pair_collapse Routing.collideA Routing.collideB
      Routing.collide_endpoint_eq⟩

end ZfsUnlocker
